import Mathlib

/-!
Shallow embedding of `src/sample/type_introspection.cpp`.

The C++ file is pure compile-time metaprogramming: a voidifying utility
(`meta::void_t`), a SFINAE detection predicate (`meta::has_member`), and four
member probes checked by `static_assert`s.  We embed it as follows:

* a C++ type is a value of the inductive `CppType`, covering the candidate
  types exercised by the file's static verification battery;
* a possibly ill-formed C++ type expression is an `Option CppType`:
  `some t` means the expression is well-formed and denotes `t`,
  `none` means substitution into the expression fails (SFINAE);
* a probe (a one-argument alias template such as `ValueType` or
  `detail::InspectReserve`) is a function `CppType → Option CppType`;
* the facts of the C++ language and standard library that the probes
  consult (which nested aliases, fields, methods and assignment operators
  each candidate type has) are encoded by explicit fact functions, each
  documented with the language rule it encodes.
-/

/-- The C++ types appearing in the source file's static verification battery,
together with `void` (the marker type), `std::size_t` (the `size_type` of the
standard containers used) and lvalue-reference types (the result type of an
assignment expression). -/
inductive CppType where
  | void : CppType
  | int : CppType
  | sizeT : CppType
  | vector : CppType → CppType
  | pair : CppType → CppType → CppType
  | array : CppType → Nat → CppType
  | uniquePtr : CppType → CppType
  | typeWithPublicData : CppType
  | typeWithPrivateData : CppType
  | ref : CppType → CppType
deriving DecidableEq, Repr

/-- A probe: a one-argument parametrized type expression
(`template <typename> class` argument of `meta::has_member`). -/
abbrev Probe := CppType → Option CppType

/-- `detail::voider`: `template <typename...> struct voider { using type = void; };`
Its nested `type` is `void` regardless of the (well-formed) arguments. -/
def voider (_ : List CppType) : CppType := CppType.void

/-- Substitution of a pack of type expressions: the pack is well-formed
exactly when each of its elements is, in which case it denotes the list of
denoted types. -/
def sequencePack : List (Option CppType) → Option (List CppType)
  | [] => some []
  | none :: _ => none
  | some t :: rest => (sequencePack rest).map (fun ts => t :: ts)

/-- `meta::apply_t<MetaFunction, Args...> = typename apply<MetaFunction, Args...>::type
= typename MetaFunction<Args...>::type`: well-formed only when every argument
of the pack is well-formed, in which case it applies the metafunction to the
denoted types. -/
def apply_t (mf : List CppType → CppType) (args : List (Option CppType)) :
    Option CppType :=
  (sequencePack args).map mf

/-- `meta::void_t<Ts...> = apply_t<detail::voider, Ts...>`. -/
def void_t (args : List (Option CppType)) : Option CppType :=
  apply_t voider args

/-- `meta::has_member<Member, Tp, V>` with the third parameter explicit.
The primary template derives `std::false_type`.  The partial specialization
`has_member<Member, Tp, meta::void_t<Member<Tp>>> : std::true_type` is a
candidate only when substituting `Tp` into `Member` succeeds (otherwise it is
discarded, not an error), and it is selected exactly when the supplied third
argument `V` equals the type the specialization's pattern computes. -/
def has_member3 (Member : Probe) (Tp : CppType) (V : CppType) : Bool :=
  match void_t [Member Tp] with
  | some m => decide (V = m)
  | none => false

/-- `meta::has_member<Member, Tp>` using the declared default third argument
`meta::void_t<>` (which is well-formed and evaluates to `void`). -/
def has_member (Member : Probe) (Tp : CppType) : Bool :=
  match void_t [] with
  | some d => has_member3 Member Tp d
  | none => false

/-! ### Standard-library and language facts consulted by the probes -/

/-- Fact function: `typename Tp::value_type`.
`std::vector<T>::value_type` and `std::array<T, N>::value_type` are `T`;
`std::pair`, `std::unique_ptr` (which has `element_type`, not `value_type`),
class types without the alias, scalar types and reference types have no
nested `value_type`, so the alias is ill-formed for them. -/
def value_type_of : CppType → Option CppType
  | CppType.vector t => some t
  | CppType.array t _ => some t
  | _ => none

/-- Fact function: `typename Tp::size_type`.
`std::vector<T>::size_type` and `std::array<T, N>::size_type` are
`std::size_t`; the other candidate types declare no nested `size_type`. -/
def size_type_of : CppType → Option CppType
  | CppType.vector _ => some CppType.sizeT
  | CppType.array _ _ => some CppType.sizeT
  | _ => none

/-- Fact function: the type of the expression `std::declval<Tp>().data`.
For `TypeWithPublicData` the member access names the public field
`int data`, and `decltype` of an unparenthesized member access yields the
declared type of the member, `int`.  For `TypeWithPrivateData` the field is
inaccessible, so the access is ill-formed.  For `std::vector` and
`std::array`, `data` names a member function overload set, and `decltype`
of a bound member function is ill-formed.  Scalar and other types have no
member `data`. -/
def data_member_of : CppType → Option CppType
  | CppType.typeWithPublicData => some CppType.int
  | _ => none

/-- Fact function: the type of the call
`std::declval<Tp>().reserve(std::declval<arg>())`.
Only `std::vector` among the candidates declares a member `reserve`; it takes
one parameter of type `size_type` (= `std::size_t`) and returns `void`.
`std::array` has no member `reserve`, so the call is ill-formed for it. -/
def reserve_call (Tp arg : CppType) : Option CppType :=
  match Tp with
  | CppType.vector _ => if arg = CppType.sizeT then some CppType.void else none
  | _ => none

/-- Fact function: the type of the expression
`std::declval<Tp>() = std::declval<Tp const&>()`.
For the class types among the candidates with a usable copy-assignment
operator (`std::vector`, `std::pair`, `std::array`, the two local structs,
whose implicitly-declared operator= is public), the member operator= is
callable on the rvalue produced by `declval` and returns `Tp&`.
For `std::unique_ptr` the copy-assignment operator is deleted, so the
expression is ill-formed.  For scalar types such as `int` (and `std::size_t`,
`void`), `std::declval<Tp>()` is an rvalue and the built-in assignment
requires a modifiable lvalue on the left, so the expression is ill-formed. -/
def copy_assign_result : CppType → Option CppType
  | CppType.vector t => some (CppType.ref (CppType.vector t))
  | CppType.pair a b => some (CppType.ref (CppType.pair a b))
  | CppType.array t n => some (CppType.ref (CppType.array t n))
  | CppType.typeWithPublicData => some (CppType.ref CppType.typeWithPublicData)
  | CppType.typeWithPrivateData => some (CppType.ref CppType.typeWithPrivateData)
  | _ => none

/-! ### The four probes and their detection predicates, as in the source -/

/-- `template <typename Tp> using ValueType = typename Tp::value_type;` -/
def ValueType (Tp : CppType) : Option CppType := value_type_of Tp

/-- `template <typename Tp> using has_value_type = meta::has_member<ValueType, Tp>;` -/
def has_value_type (Tp : CppType) : Bool := has_member ValueType Tp

/-- `detail::InspectDataProperty<Tp> = decltype(std::declval<Tp>().data)`. -/
def InspectDataProperty (Tp : CppType) : Option CppType := data_member_of Tp

/-- `using has_data_property = meta::has_member<detail::InspectDataProperty, Tp>;` -/
def has_data_property (Tp : CppType) : Bool := has_member InspectDataProperty Tp

/-- `detail::InspectReserve<Tp> =
decltype(std::declval<Tp>().reserve(std::declval<typename Tp::size_type>()))`.
The inner `std::declval<typename Tp::size_type>()` requires the nested alias
`Tp::size_type` to be well-formed; only then is the call itself formed. -/
def InspectReserve (Tp : CppType) : Option CppType :=
  (size_type_of Tp).bind (fun s => reserve_call Tp s)

/-- `using has_reserve = meta::has_member<detail::InspectReserve, Tp>;` -/
def has_reserve (Tp : CppType) : Bool := has_member InspectReserve Tp

/-- `detail::InspectCopyAssignable<Tp> =
decltype(std::declval<Tp>() = std::declval<Tp const&>())`. -/
def InspectCopyAssignable (Tp : CppType) : Option CppType :=
  copy_assign_result Tp

/-- `using is_copy_assignable = meta::has_member<detail::InspectCopyAssignable, Tp>;` -/
def is_copy_assignable (Tp : CppType) : Bool :=
  has_member InspectCopyAssignable Tp

/-! ### Shared helper lemmas -/

/-- The detection predicate reduces to well-formedness of the probe
instantiation: `has_member Member Tp` is exactly `(Member Tp).isSome`. -/
theorem has_member_eq_isSome (Member : Probe) (Tp : CppType) :
    has_member Member Tp = (Member Tp).isSome := by
  cases h : Member Tp <;>
    simp [has_member, has_member3, void_t, apply_t, sequencePack, voider, h]

/-- A battery of detections evaluated in sequence. -/
def eval_battery (qs : List (Probe × CppType)) : List Bool :=
  qs.map (fun q => has_member q.1 q.2)

/-! ### Claim theorems -/

/-- Claim C1: detection is total: for every probe and every candidate type the
detection predicate evaluates to exactly one of true and false, and an
ill-formed probe instantiation (substitution failure, `Member Tp = none`)
stays contained: it yields false instead of escalating. -/
theorem detection_total_and_contained :
    (∀ (Member : Probe) (Tp : CppType),
      has_member Member Tp = true ∨ has_member Member Tp = false) ∧
    (∀ (Member : Probe) (Tp : CppType),
      Member Tp = none → has_member Member Tp = false) := by
  constructor
  · intro Member Tp
    cases h : has_member Member Tp
    · exact Or.inr rfl
    · exact Or.inl rfl
  · intro Member Tp h
    rw [has_member_eq_isSome, h]
    rfl

/-- Witness for C1 at the everywhere-ill-formed probe and candidate int. -/
theorem detection_total_and_contained_witness :
    has_member (fun _ => none) CppType.int = false :=
  detection_total_and_contained.2 (fun _ => none) CppType.int rfl

/-- Claim C2: `has_member Member Tp` is true iff the probe instantiation is
well-formed, i.e. the voidifying utility applied to it is well-formed; when
the specialization does not match because the probe is ill-formed for `Tp`,
the result is false. -/
theorem has_member_true_iff_wellformed (Member : Probe) (Tp : CppType) :
    (has_member Member Tp = true ↔ (void_t [Member Tp]).isSome = true) ∧
    (void_t [Member Tp] = none → has_member Member Tp = false) := by
  cases h : Member Tp <;>
    simp [has_member_eq_isSome, void_t, apply_t, sequencePack, h]

/-- Witness for C2 at the value-type probe and candidate int. -/
theorem has_member_true_iff_wellformed_witness :
    has_member ValueType CppType.int = false :=
  (has_member_true_iff_wellformed ValueType CppType.int).2 rfl

/-- Claim C3: the nested value-type-alias probe is true for
`std::vector<int>` and false for `std::pair<int, int>` and for `int`. -/
theorem has_value_type_battery :
    has_value_type (CppType.vector CppType.int) = true ∧
    has_value_type (CppType.pair CppType.int CppType.int) = false ∧
    has_value_type CppType.int = false := by decide

/-- Claim C4: the public-field probe is true for `TypeWithPublicData` and
false for `std::vector<int>`, for `TypeWithPrivateData` (the field exists but
is inaccessible) and for `int`. -/
theorem has_data_property_battery :
    has_data_property CppType.typeWithPublicData = true ∧
    has_data_property (CppType.vector CppType.int) = false ∧
    has_data_property CppType.typeWithPrivateData = false ∧
    has_data_property CppType.int = false := by decide

/-- Claim C5: the reserve-capacity probe is true for `std::vector<int>` and
false for `std::array<int, 10>`; moreover the probe is well-formed only when
the candidate declares the nested `size_type` alias and the `reserve` call on
that alias type is itself well-formed. -/
theorem has_reserve_battery_and_characterization :
    has_reserve (CppType.vector CppType.int) = true ∧
    has_reserve (CppType.array CppType.int 10) = false ∧
    (∀ Tp : CppType, size_type_of Tp = none → has_reserve Tp = false) ∧
    (∀ (Tp s : CppType), size_type_of Tp = some s →
      has_reserve Tp = (reserve_call Tp s).isSome) := by
  refine ⟨by decide, by decide, ?_, ?_⟩
  · intro Tp h
    simp [has_reserve, has_member_eq_isSome, InspectReserve, h]
  · intro Tp s h
    simp [has_reserve, has_member_eq_isSome, InspectReserve, h]

/-- Witness for C5 at `std::vector<int>`, whose `size_type` is `size_t`. -/
theorem has_reserve_characterization_witness :
    has_reserve (CppType.vector CppType.int) =
      (reserve_call (CppType.vector CppType.int) CppType.sizeT).isSome :=
  has_reserve_battery_and_characterization.2.2.2
    (CppType.vector CppType.int) CppType.sizeT rfl

/-- Claim C6: the copy-assignment probe is true for `std::vector<int>` and
for `std::pair<int, int>`, and false for `std::unique_ptr<int>`, whose copy
assignment is deleted. -/
theorem is_copy_assignable_battery :
    is_copy_assignable (CppType.vector CppType.int) = true ∧
    is_copy_assignable (CppType.pair CppType.int CppType.int) = true ∧
    is_copy_assignable (CppType.uniquePtr CppType.int) = false := by decide

/-- Claim C7, counterexample: evaluating the copy-assignment probe on `int`
yields false, not true: `std::declval<int>()` is an rvalue, and the built-in
assignment requires a modifiable lvalue on the left for scalar types, so the
probe expression is ill-formed and the detection yields false — exactly what
the source records by commenting the assertion out with the note that it
fails. -/
theorem is_copy_assignable_int_not_true :
    ¬ is_copy_assignable CppType.int = true := by decide

/-- Claim C7, amended: the copy-assignment probe evaluated on `int` yields
false, because the probe's left operand is an rvalue and scalar rvalues
cannot be assigned to; the probe substitution fails for `int` even though
`int` lvalues are copy-assignable. -/
theorem is_copy_assignable_int_eq_false :
    InspectCopyAssignable CppType.int = none ∧
    is_copy_assignable CppType.int = false := by decide

/-- Claim C8: for every pack of type arguments whose members are all
well-formed, including the empty pack, the voidifying utility yields the one
canonical marker type void. -/
theorem void_t_canonical (args : List (Option CppType))
    (h : ∀ a ∈ args, a.isSome = true) : void_t args = some CppType.void := by
  obtain ⟨ts, hts⟩ : ∃ ts, sequencePack args = some ts := by
    revert h
    induction args with
    | nil => exact fun _ => ⟨[], rfl⟩
    | cons a rest ih =>
      intro h
      obtain ⟨ts, hts⟩ := ih (fun b hb => h b (List.mem_cons_of_mem a hb))
      cases ha : a with
      | none =>
        have hx := h a (List.mem_cons_self a rest)
        rw [ha] at hx
        simp at hx
      | some t => exact ⟨t :: ts, by simp [sequencePack, hts]⟩
  rw [void_t, apply_t, hts]
  rfl

/-- Witness for C8 at a two-element pack of well-formed arguments. -/
theorem void_t_canonical_witness :
    void_t [some CppType.int, some (CppType.vector CppType.int)] =
      some CppType.void :=
  void_t_canonical _ (by decide)

/-- Claim C9: the detection result depends only on the (probe, type) pair:
whenever the same pair occurs at any position of any two evaluation
sequences, both evaluations yield the same boolean, namely `has_member`
applied to the pair, independent of order and of the other evaluations. -/
theorem eval_battery_order_independent
    (qs qs2 : List (Probe × CppType)) (i j : Nat) (q : Probe × CppType)
    (hi : qs[i]? = some q) (hj : qs2[j]? = some q) :
    (eval_battery qs)[i]? = some (has_member q.1 q.2) ∧
    (eval_battery qs)[i]? = (eval_battery qs2)[j]? := by
  have h1 : (eval_battery qs)[i]? = some (has_member q.1 q.2) := by
    rw [eval_battery, List.getElem?_map, hi]
    rfl
  have h2 : (eval_battery qs2)[j]? = some (has_member q.1 q.2) := by
    rw [eval_battery, List.getElem?_map, hj]
    rfl
  exact ⟨h1, h1.trans h2.symm⟩

/-- Witness for C9: the value-type probe on `std::vector<int>` evaluates the
same at position 1 of one battery and position 0 of another. -/
theorem eval_battery_order_independent_witness :
    (eval_battery
      [(ValueType, CppType.int),
       (ValueType, CppType.vector CppType.int)])[1]? =
    (eval_battery [(ValueType, CppType.vector CppType.int)])[0]? :=
  (eval_battery_order_independent _ _ 1 0
    (ValueType, CppType.vector CppType.int) rfl rfl).2

/-- Claim C10: the third template parameter defaults to the marker type void,
and any explicitly supplied non-void third argument makes the predicate
false, even when the probe instantiation is well-formed, because the
true-yielding specialization only matches the marker type produced by the
voidifying utility. -/
theorem has_member_third_param :
    (∀ (Member : Probe) (Tp : CppType),
      has_member Member Tp = has_member3 Member Tp CppType.void) ∧
    (∀ (Member : Probe) (Tp : CppType) (V : CppType),
      V ≠ CppType.void → has_member3 Member Tp V = false) := by
  constructor
  · intro Member Tp
    rfl
  · intro Member Tp V hV
    cases h : Member Tp <;>
      simp [has_member3, void_t, apply_t, sequencePack, voider, h, hV]

/-- Witness for C10 at the value-type probe, where the probe instantiation is
well-formed and yet a third argument of int yields false. -/
theorem has_member_third_param_witness :
    ValueType (CppType.vector CppType.int) = some CppType.int ∧
    has_member3 ValueType (CppType.vector CppType.int) CppType.int = false :=
  ⟨rfl, has_member_third_param.2 ValueType (CppType.vector CppType.int)
    CppType.int (by decide)⟩
